import Mathlib

/-!
Verification development for the goblinomincs market/recipe analysis code.

The Python source is shallowly embedded over exact rational arithmetic:

* a pandas DataFrame of price observations becomes a list of rows carrying
  a timestamp (in days, as a rational), the weekday name derived from that
  timestamp, the item name and the observed avg_price;
* the module-level dictionaries (recipe lookup, vendor table, cost cache)
  become association lists threaded explicitly through the functions;
* Python recursion bounded by the interpreter recursion limit (the code
  catches RecursionError in _get_craft_price_for_reagent) is made explicit
  as a fuel parameter: fuel exhaustion corresponds exactly to the caught
  RecursionError, returning the pair (None, None);
* a Python float or None is an Option of a rational; functions returning
  the tied pair (None, None) or (price, price_7d) return an Option of a
  pair, since every return site of the source produces both components
  together.
-/

namespace Goblinomincs

/-- One price observation row of the market DataFrame: timestamp in days,
weekday name of that timestamp, item name, and observed avg_price. -/
structure Row where
  time : ℚ
  weekday : String
  item_name : String
  avg_price : ℚ
deriving DecidableEq, Repr

/-- The market DataFrame, as produced by load_all_market_data: rows in file
order (ascending timestamps per item). -/
abbrev DF := List Row

/-- Mean of a list of rationals; the sources only take means of non-empty
selections, where this agrees with the pandas mean. -/
def mean (xs : List ℚ) : ℚ := xs.sum / xs.length

/-- Maximum timestamp of a frame (index.max in pandas); the sources only
apply it to non-empty frames. -/
def maxTime (df : DF) : ℚ :=
  match df.map Row.time with
  | [] => 0
  | t :: ts => ts.foldl max t

/-- Rows of the frame for one item: df[df["item_name"] == name]. -/
def filterItem (df : DF) (name : String) : DF :=
  df.filter (fun r => r.item_name == name)

/-- Round a rational to the nearest integer, halves to even, following the
numpy/pandas rounding used by DataFrame.round. -/
def roundHalfEven (q : ℚ) : ℤ :=
  let f := ⌊q⌋
  let frac := q - f
  if frac < 1/2 then f
  else if 1/2 < frac then f + 1
  else if Even f then f else f + 1

/-- DataFrame.round(2): round to two decimal places, halves to even. -/
def round2 (q : ℚ) : ℚ := (roundHalfEven (q * 100) : ℚ) / 100

/-- Python min over a non-empty list with a key function: the first element
attaining the minimal key is returned (later elements replace the current
best only when strictly smaller). -/
def pyMinBy {α : Type} (key : α → ℚ) : α → List α → α
  | best, [] => best
  | best, x :: xs => pyMinBy key (if key x < key best then x else best) xs

/-- First element attaining the maximal key, mirroring a stable descending
sort followed by taking the first row. -/
def pyMaxBy {α : Type} (key : α → ℚ) : α → List α → α
  | best, [] => best
  | best, x :: xs => pyMaxBy key (if key best < key x then x else best) xs

/-- Insert into a list kept in descending key order, after all entries with
a key at least as large; used to model the stable Python list.sort with
reverse=True. -/
def insertDesc {α : Type} (key : α → ℚ) (x : α) : List α → List α
  | [] => [x]
  | y :: ys => if key y < key x then x :: y :: ys else y :: insertDesc key x ys

/-- Stable descending sort by a rational key (Python list.sort(key=...,
reverse=True)). -/
def sortDescBy {α : Type} (key : α → ℚ) (l : List α) : List α :=
  l.foldl (fun acc x => insertDesc key x acc) []

/-! ## Market statistics engine (analyze_market_data.py) -/

/-- The alphabetically ordered weekday names, the group-key order produced
by pandas groupby over index.day_name(). -/
def weekdayAlpha : List String :=
  ["Friday", "Monday", "Saturday", "Sunday", "Thursday", "Tuesday", "Wednesday"]

/-- The avg_price observations of one weekday for an item frame. -/
def dayPrices (df : DF) (d : String) : List ℚ :=
  (df.filter (fun r => r.weekday == d)).map Row.avg_price

/-- Number of observations of one weekday for an item frame. -/
def dayCount (df : DF) (d : String) : ℕ := (dayPrices df d).length

/-- The groupby(day_name)["avg_price"].agg(["mean", "count"]).round(2)
table of analyze_daily_patterns: for each weekday present in the data, in
alphabetical group order, the rounded mean avg_price and the sample count
(rounding the integer count is the identity). -/
def daily_prices (df : DF) : List (String × ℚ × ℕ) :=
  weekdayAlpha.filterMap (fun d =>
    if dayPrices df d = [] then none
    else some (d, round2 (mean (dayPrices df d)), dayCount df d))

/-- Weekdays with at least 3 samples: daily_prices[daily_prices["count"] >= 3]. -/
def valid_days (df : DF) : List (String × ℚ × ℕ) :=
  (daily_prices df).filter (fun e => 3 ≤ e.2.2)

/-- Result record of analyze_daily_patterns. -/
structure DailyPatterns where
  best_buy_day : String
  best_buy_price : ℚ
  best_sell_day : String
  best_sell_price : ℚ
  potential_profit : ℚ
deriving DecidableEq, Repr

/-- analyze_daily_patterns: group by weekday, keep weekdays with at least
3 samples, pick the lowest rounded mean as best buy day and the highest as
best sell day (first row of the stable sort on ties), and report the flip
profit percentage; sentinel result when no weekday qualifies. -/
def analyze_daily_patterns (item_df : DF) : DailyPatterns :=
  match valid_days item_df with
  | [] => ⟨"N/A", 0, "N/A", 0, 0⟩
  | v :: vs =>
    let buy := pyMinBy (fun e => e.2.1) v vs
    let sell := pyMaxBy (fun e => e.2.1) v vs
    ⟨buy.1, buy.2.1, sell.1, sell.2.1,
      (sell.2.1 - buy.2.1) / buy.2.1 * 100⟩

/-- Result record of analyze_buy_sell_now; the empty Python dict returned
on missing data becomes none. -/
structure BuySellAnalysis where
  item_name : String
  current_price : ℚ
  avg_3d : ℚ
  pct_diff : ℚ
  price_diff : ℚ
  last_updated : ℚ
deriving DecidableEq, Repr

/-- analyze_buy_sell_now: compare the latest observation of an item to the
mean over the 3-day window strictly preceding the latest timestamp. -/
def analyze_buy_sell_now (df : DF) (item_name : String) : Option BuySellAnalysis :=
  let item_df := filterItem df item_name
  match item_df.getLast? with
  | none => none
  | some last =>
    let latest_price := last.avg_price
    let latest_time := last.time
    let three_days_ago := latest_time - 3
    let three_day_data := item_df.filter
      (fun r => three_days_ago ≤ r.time ∧ r.time < latest_time)
    if three_day_data = [] then none
    else
      let avg_3d := mean (three_day_data.map Row.avg_price)
      some ⟨item_name, latest_price, avg_3d,
        (latest_price - avg_3d) / avg_3d * 100,
        latest_price - avg_3d, latest_time⟩

/-- Result record of analyze_item (trend and daily-pattern fields); the
empty dict returned for an unknown item becomes none. -/
structure ItemStats where
  item_name : String
  avg_30d : ℚ
  avg_7d : ℚ
  trend : ℚ
  best_buy_day : String
  best_buy_price : ℚ
  best_sell_day : String
  best_sell_price : ℚ
  flip_profit : ℚ
deriving DecidableEq, Repr

/-- analyze_item: 30-day average over the whole item frame, 7-day average
over the window anchored at the frame maximum timestamp, and the trend
guarded by the Python truthiness test if avg_7d and avg_30d, which treats
a zero average like missing data. -/
def analyze_item (df : DF) (item_name : String) : Option ItemStats :=
  let item_df := filterItem df item_name
  if item_df = [] then none
  else
    let avg_30d := mean (item_df.map Row.avg_price)
    let cutoff_date := maxTime item_df - 7
    let avg_7d := mean ((item_df.filter (fun r => cutoff_date ≤ r.time)).map Row.avg_price)
    let trend := if avg_7d ≠ 0 ∧ avg_30d ≠ 0 then (avg_7d - avg_30d) / avg_30d * 100 else 0
    let dp := analyze_daily_patterns item_df
    some ⟨item_name, avg_30d, avg_7d, trend,
      dp.best_buy_day, dp.best_buy_price, dp.best_sell_day, dp.best_sell_price,
      dp.potential_profit⟩

/-- Modelled from the spec: the trend figure as section 4.1 of the
specification defines it, namely (avg_7d - avg_30d) / avg_30d * 100
whenever both averages exist (the item frame is non-empty, so both means
are defined, a zero value included) and avg_30d is non-zero, else 0. Kept
alongside analyze_item to compare the code against the specified trend. -/
def analyze_item_trend_per_spec (df : DF) (item_name : String) : Option ℚ :=
  let item_df := filterItem df item_name
  if item_df = [] then none
  else
    let avg_30d := mean (item_df.map Row.avg_price)
    let cutoff_date := maxTime item_df - 7
    let avg_7d := mean ((item_df.filter (fun r => cutoff_date ≤ r.time)).map Row.avg_price)
    some (if avg_30d ≠ 0 then (avg_7d - avg_30d) / avg_30d * 100 else 0)

/-- The loop body of get_buy_sell_opportunities: skip items with no
analysis, append to the buy list when pct_diff < -threshold, else to the
sell list when pct_diff > threshold, else keep neither. -/
def classify_step (df : DF) (threshold_pct : ℚ)
    (acc : List BuySellAnalysis × List BuySellAnalysis)
    (it : String × String) : List BuySellAnalysis × List BuySellAnalysis :=
  match analyze_buy_sell_now df it.2 with
  | none => acc
  | some analysis =>
    if analysis.pct_diff < -threshold_pct then (acc.1 ++ [analysis], acc.2)
    else if threshold_pct < analysis.pct_diff then (acc.1, acc.2 ++ [analysis])
    else acc

/-- get_buy_sell_opportunities: classify every item against the threshold
(buy when pct_diff < -threshold, else sell when pct_diff > threshold),
then sort buys by descending absolute gold difference and sells by
descending signed gold difference. -/
def get_buy_sell_opportunities (df : DF) (items : List (String × String))
    (threshold_pct : ℚ) : List BuySellAnalysis × List BuySellAnalysis :=
  let lists := items.foldl (classify_step df threshold_pct) ([], [])
  (sortDescBy (fun a => |a.price_diff|) lists.1,
   sortDescBy (fun a => a.price_diff) lists.2)

/-! ## Recipe cost resolution engine (recipe_analysis.py, vendor_items.py)

The three mutually recursive Python functions are embedded with the
recursion made explicit: each of the _gen functions is the body of its
Python namesake with the recursive call abstracted as a function argument,
and get_craft_price_for_reagent ties the knot by structural recursion on
the fuel that models the interpreter recursion limit (fuel 0 is the point
where Python raises RecursionError, which the source catches and converts
to the pair (None, None)). The mutable cost_cache dictionary is threaded
as an explicit value: an association list where insertion prepends and
lookup takes the first match. -/

/-- A reagent of a recipe: item id, display name, quantity. -/
structure Reagent where
  id : String
  name : String
  quantity : ℕ
deriving DecidableEq, Repr

/-- A recipe of the catalog: output item id, output item name, source
profession, and the ordered reagent list. -/
structure Recipe where
  id : String
  name : String
  source : String
  reagents : List Reagent
deriving DecidableEq, Repr

/-- The recipe lookup dictionary mapping item ids to recipes, as built by
build_recipe_lookup. -/
abbrev RecipeLookup := List (String × Recipe)

/-- Dictionary lookup in the recipe table. -/
def lookupRecipe (lookup : RecipeLookup) (item_id : String) : Option Recipe :=
  (lookup.find? (fun p => p.1 == item_id)).map Prod.snd

/-- The vendor table mapping item ids to fixed vendor prices, the content
of vendor_items.json. -/
abbrev VendorTable := List (String × ℚ)

/-- get_vendor_price: the fixed vendor price of an item, or none when the
item is not a vendor item. -/
def get_vendor_price (vendor_items : VendorTable) (item_id : String) : Option ℚ :=
  (vendor_items.find? (fun p => p.1 == item_id)).map Prod.snd

/-- One cost_cache entry: resolved unit price, 7-day unit price and the
source tag, as stored by get_best_reagent_price. -/
structure CacheEntry where
  unit_price : ℚ
  unit_price_7d : ℚ
  source : String
deriving DecidableEq, Repr

/-- The cost cache dictionary threaded through one resolution pass. -/
abbrev Cache := List (String × CacheEntry)

/-- Dictionary lookup in the cost cache. -/
def lookupCache (cache : Cache) (item_id : String) : Option CacheEntry :=
  (cache.find? (fun p => p.1 == item_id)).map Prod.snd

/-- Dictionary insertion into the cost cache (prepend: the newest binding
shadows older ones, matching dict assignment). -/
def cacheInsert (cache : Cache) (item_id : String) (e : CacheEntry) : Cache :=
  (item_id, e) :: cache

/-- One entry of the per-reagent cost breakdown list. -/
structure ReagentCost where
  name : String
  quantity : ℕ
  unit_price : ℚ
  unit_price_7d : ℚ
  total_cost : ℚ
  source : String
deriving DecidableEq, Repr

/-- The result dictionary of _calculate_crafting_cost_internal. -/
structure CostResult where
  recipe_id : String
  recipe_name : String
  source : String
  total_cost : ℚ
  total_cost_7d : ℚ
  current_price : Option ℚ
  current_price_7d : Option ℚ
  profit : Option ℚ
  profit_pct : Option ℚ
  profit_7d : Option ℚ
  profit_7d_pct : Option ℚ
  reagent_costs : List ReagentCost
  missing_prices : List String
deriving DecidableEq, Repr

/-- _get_market_price_for_reagent: current price is the last row of the
item frame, the 7-day price is the mean over the window anchored at the
frame maximum timestamp (falling back to the current price on an empty
window); none when the item has no rows at all. -/
def get_market_price_for_reagent (reagent_name : String) (df : DF) :
    Option (ℚ × ℚ) :=
  let reagent_data := filterItem df reagent_name
  match reagent_data.getLast? with
  | none => none
  | some last =>
    let current_price := last.avg_price
    let cutoff_date := maxTime reagent_data - 7
    let reagent_7d := reagent_data.filter (fun r => cutoff_date ≤ r.time)
    let price_7d :=
      if reagent_7d = [] then current_price
      else mean (reagent_7d.map Row.avg_price)
    some (current_price, price_7d)

/-- _choose_best_price: build the option list (craft first, then market)
and take the Python min by current price, which keeps the first entry on a
tie; none stands for the (None, None, "missing") return. -/
def choose_best_price (craft : Option (ℚ × ℚ)) (market : Option (ℚ × ℚ)) :
    Option ((ℚ × ℚ) × String) :=
  let options : List ((ℚ × ℚ) × String) :=
    (match craft with
     | some c => [(c, "crafted")]
     | none => []) ++
    (match market with
     | some m => [(m, "auction")]
     | none => [])
  match options with
  | [] => none
  | o :: os => some (pyMinBy (fun x => x.1.1) o os)

/-- _get_craft_price_for_reagent with the recursive call to
_calculate_crafting_cost_internal abstracted as calcFn: craft cost is the
total of the recipe when the item has one and no reagent price is missing. -/
def get_craft_price_for_reagent_gen
    (calcFn : Recipe → Cache → CostResult × Cache)
    (reagent_id : String) (lookup : RecipeLookup) (cache : Cache) :
    Option (ℚ × ℚ) × Cache :=
  match lookupRecipe lookup reagent_id with
  | none => (none, cache)
  | some recipe =>
    let res := calcFn recipe cache
    if res.1.missing_prices = [] then
      (some (res.1.total_cost, res.1.total_cost_7d), res.2)
    else (none, res.2)

/-- get_best_reagent_price with the craft-price computation abstracted as
craftFn: cache hit first, then the unconditional vendor price, then the
cheaper of craft and market, caching any resolved price. -/
def get_best_reagent_price_gen
    (craftFn : String → Cache → Option (ℚ × ℚ) × Cache)
    (reagent_id reagent_name : String) (df : DF) (vendor : VendorTable)
    (cache : Cache) : Option ((ℚ × ℚ) × String) × Cache :=
  match lookupCache cache reagent_id with
  | some cached => (some ((cached.unit_price, cached.unit_price_7d), cached.source), cache)
  | none =>
    match get_vendor_price vendor reagent_id with
    | some vendor_price =>
      (some ((vendor_price, vendor_price), "vendor"),
       cacheInsert cache reagent_id ⟨vendor_price, vendor_price, "vendor"⟩)
    | none =>
      let craftRes := craftFn reagent_id cache
      let market := get_market_price_for_reagent reagent_name df
      match choose_best_price craftRes.1 market with
      | some ((best_price, best_price_7d), source) =>
        (some ((best_price, best_price_7d), source),
         cacheInsert craftRes.2 reagent_id ⟨best_price, best_price_7d, source⟩)
      | none => (none, craftRes.2)

/-- The reagent loop of _calculate_crafting_cost_internal with the reagent
pricing abstracted as bestFn: accumulate totals and the breakdown list,
collecting the names of unresolved reagents. -/
def calc_reagents_gen
    (bestFn : String → String → Cache → Option ((ℚ × ℚ) × String) × Cache) :
    List Reagent → Cache → (ℚ × ℚ × List ReagentCost × List String) × Cache
  | [], cache => ((0, 0, [], []), cache)
  | reagent :: rest, cache =>
    let res := bestFn reagent.id reagent.name cache
    match res.1 with
    | none =>
      let tail := calc_reagents_gen bestFn rest res.2
      ((tail.1.1, tail.1.2.1, tail.1.2.2.1, reagent.name :: tail.1.2.2.2), tail.2)
    | some ((unit_price, unit_price_7d), source) =>
      let reagent_cost := unit_price * reagent.quantity
      let reagent_cost_7d := unit_price_7d * reagent.quantity
      let tail := calc_reagents_gen bestFn rest res.2
      ((reagent_cost + tail.1.1, reagent_cost_7d + tail.1.2.1,
        ⟨reagent.name, reagent.quantity, unit_price, unit_price_7d,
          reagent_cost, source⟩ :: tail.1.2.2.1,
        tail.1.2.2.2), tail.2)

/-- _calculate_crafting_cost_internal with the reagent pricing abstracted
as bestFn: price all reagents, then look up the crafted item market series
and compute profit figures, the percentage figures guarded against a zero
total cost. -/
def calculate_crafting_cost_internal_gen
    (bestFn : String → String → Cache → Option ((ℚ × ℚ) × String) × Cache)
    (recipe : Recipe) (df : DF) (cache : Cache) : CostResult × Cache :=
  let loop := calc_reagents_gen bestFn recipe.reagents cache
  let total_cost := loop.1.1
  let total_cost_7d := loop.1.2.1
  let reagent_costs := loop.1.2.2.1
  let missing_prices := loop.1.2.2.2
  let crafted_data := filterItem df recipe.name
  match crafted_data.getLast? with
  | none =>
    ({ recipe_id := recipe.id, recipe_name := recipe.name,
       source := recipe.source, total_cost := total_cost,
       total_cost_7d := total_cost_7d, current_price := none,
       current_price_7d := none, profit := none, profit_pct := none,
       profit_7d := none, profit_7d_pct := none,
       reagent_costs := reagent_costs, missing_prices := missing_prices },
     loop.2)
  | some last =>
    let current_price := last.avg_price
    let cutoff_date := maxTime crafted_data - 7
    let crafted_7d := crafted_data.filter (fun r => cutoff_date ≤ r.time)
    let current_price_7d :=
      if crafted_7d = [] then current_price
      else mean (crafted_7d.map Row.avg_price)
    let profit := current_price - total_cost
    let profit_pct := if 0 < total_cost then profit / total_cost * 100 else 0
    let profit_7d := current_price_7d - total_cost_7d
    let profit_7d_pct :=
      if 0 < total_cost_7d then profit_7d / total_cost_7d * 100 else 0
    ({ recipe_id := recipe.id, recipe_name := recipe.name,
       source := recipe.source, total_cost := total_cost,
       total_cost_7d := total_cost_7d, current_price := some current_price,
       current_price_7d := some current_price_7d, profit := some profit,
       profit_pct := some profit_pct, profit_7d := some profit_7d,
       profit_7d_pct := some profit_7d_pct,
       reagent_costs := reagent_costs, missing_prices := missing_prices },
     loop.2)

/-- _get_craft_price_for_reagent: ties the recursion together, structural
on the fuel modelling the interpreter recursion limit; at fuel 0 the
RecursionError raised by the next call is caught and converted to none,
exactly as the except RecursionError branch of the source does. -/
def get_craft_price_for_reagent (fuel : ℕ) (reagent_id : String) (df : DF)
    (lookup : RecipeLookup) (vendor : VendorTable) (cache : Cache) :
    Option (ℚ × ℚ) × Cache :=
  match fuel with
  | 0 => (none, cache)
  | fuel' + 1 =>
    get_craft_price_for_reagent_gen
      (fun recipe c =>
        calculate_crafting_cost_internal_gen
          (fun rid rname c' =>
            get_best_reagent_price_gen
              (fun rid' c'' => get_craft_price_for_reagent fuel' rid' df lookup vendor c'')
              rid rname df vendor c')
          recipe df c)
      reagent_id lookup cache

/-- get_best_reagent_price at a given fuel level. -/
def get_best_reagent_price (fuel : ℕ) (reagent_id reagent_name : String)
    (df : DF) (lookup : RecipeLookup) (vendor : VendorTable) (cache : Cache) :
    Option ((ℚ × ℚ) × String) × Cache :=
  get_best_reagent_price_gen
    (fun rid c => get_craft_price_for_reagent fuel rid df lookup vendor c)
    reagent_id reagent_name df vendor cache

/-- _calculate_crafting_cost_internal at a given fuel level. -/
def calculate_crafting_cost_internal (fuel : ℕ) (recipe : Recipe) (df : DF)
    (lookup : RecipeLookup) (vendor : VendorTable) (cache : Cache) :
    CostResult × Cache :=
  calculate_crafting_cost_internal_gen
    (fun rid rname c => get_best_reagent_price fuel rid rname df lookup vendor c)
    recipe df cache

/-- calculate_crafting_cost: a single resolution with a fresh cache. -/
def calculate_crafting_cost (fuel : ℕ) (recipe : Recipe) (df : DF)
    (lookup : RecipeLookup) (vendor : VendorTable) : CostResult :=
  (calculate_crafting_cost_internal fuel recipe df lookup vendor []).1

/-- The batch loop of get_profitable_recipes: analyze every catalog recipe
in order, threading the shared cache. -/
def analyses_fold (fuel : ℕ) (recipes : List Recipe) (df : DF)
    (lookup : RecipeLookup) (vendor : VendorTable) (cache : Cache) :
    List CostResult × Cache :=
  match recipes with
  | [] => ([], cache)
  | recipe :: rest =>
    let res := calculate_crafting_cost_internal fuel recipe df lookup vendor cache
    let tail := analyses_fold fuel rest df lookup vendor res.2
    (res.1 :: tail.1, tail.2)

/-- get_profitable_recipes: analyze the whole catalog over one shared
cache, keep the analyses with a profit, no missing price and a profit
percentage at least the caller minimum, and sort by descending absolute
profit in gold. -/
def get_profitable_recipes (fuel : ℕ) (recipes : List Recipe) (df : DF)
    (lookup : RecipeLookup) (vendor : VendorTable) (min_profit_pct : ℚ) :
    List CostResult :=
  let analyses := (analyses_fold fuel recipes df lookup vendor []).1
  let profitable := analyses.filter (fun a =>
    a.profit.isSome && a.missing_prices.isEmpty &&
      decide (min_profit_pct ≤ a.profit_pct.getD 0))
  sortDescBy (fun a => a.profit.getD 0) profitable

/-! ## Concrete fixtures used by the theorems below -/

/-- Recipe A of a two-recipe cycle: item 1 requires item 2. -/
def recA : Recipe := ⟨"1", "Arcanite", "Alchemy", [⟨"2", "Thorium", 1⟩]⟩

/-- Recipe B of a two-recipe cycle: item 2 requires item 1. -/
def recB : Recipe := ⟨"2", "Thorium", "Alchemy", [⟨"1", "Arcanite", 1⟩]⟩

/-- Catalog lookup holding only the two cyclic recipes. -/
def lookupCyc : RecipeLookup := [("1", recA), ("2", recB)]

/-- Result of resolving recipe A over the cyclic catalog with no market
data: nothing priced, the single reagent unresolved. -/
def resACyc : CostResult :=
  ⟨"1", "Arcanite", "Alchemy", 0, 0, none, none, none, none, none, none, [], ["Thorium"]⟩

/-- Result of resolving recipe B over the cyclic catalog with no market
data: nothing priced, the single reagent unresolved. -/
def resBCyc : CostResult :=
  ⟨"2", "Thorium", "Alchemy", 0, 0, none, none, none, none, none, none, [], ["Arcanite"]⟩

/-- Market frame with a price on the cyclic item Thorium, so the
truncated cyclic descent can fall back to the market. -/
def dfCycM : DF := [⟨0, "Monday", "Thorium", 5⟩]

/-- Market frame where crafting an IronBar from an IronOre costs exactly
the IronBar market price: a tie between craft and auction. -/
def dfC3 : DF := [⟨0, "Monday", "IronBar", 2⟩, ⟨0, "Monday", "IronOre", 2⟩]

/-- Market frame where the craft cost (2) beats the IronBar market price
(3). -/
def dfC3w : DF := [⟨0, "Monday", "IronBar", 3⟩, ⟨0, "Monday", "IronOre", 2⟩]

/-- Catalog with the single IronBar recipe. -/
def lookupC3 : RecipeLookup := [("10", ⟨"10", "IronBar", "Smithing", [⟨"11", "IronOre", 1⟩]⟩)]

/-- Recipe with one market-priced reagent and one unresolvable reagent. -/
def recC4 : Recipe := ⟨"9", "Potion", "Alchemy", [⟨"3", "Herb", 1⟩, ⟨"4", "Mystery", 1⟩]⟩

/-- Market frame pricing the Herb reagent and the crafted Potion, but not
the Mystery reagent. -/
def dfC4 : DF := [⟨0, "Monday", "Herb", 1⟩, ⟨0, "Monday", "Potion", 10⟩]

/-- Market frame whose latest Gem price sits exactly 5 percent below the
3-day average of the preceding observations. -/
def dfC6 : DF :=
  [⟨0, "Monday", "Gem", 10⟩, ⟨1, "Tuesday", "Gem", 10⟩,
   ⟨2, "Wednesday", "Gem", (19 : ℚ)/2⟩]

/-- Market frame whose 7-day window average is exactly zero while the
30-day average is non-zero. -/
def dfC7 : DF := [⟨0, "Monday", "Gem", 3⟩, ⟨20, "Saturday", "Gem", 0⟩]

/-- Recipe with no reagents, so its total cost is zero. -/
def recC9 : Recipe := ⟨"20", "Elixir", "Alchemy", []⟩

/-- Market frame pricing the crafted Elixir. -/
def dfC9 : DF := [⟨0, "Monday", "Elixir", 5⟩]

/-- Observations where Monday has the strictly lowest exact mean (1.001)
but rounds to the same two-decimal value as Friday (1.004), both with
three samples. -/
def obsC10 : DF :=
  [⟨0, "Friday", "x", 1.004⟩, ⟨1, "Friday", "x", 1.004⟩, ⟨2, "Friday", "x", 1.004⟩,
   ⟨3, "Monday", "x", 1.001⟩, ⟨4, "Monday", "x", 1.001⟩, ⟨5, "Monday", "x", 1.001⟩]

/-- Observations with a single weekday holding three samples. -/
def obsC8 : DF :=
  [⟨0, "Monday", "x", 1⟩, ⟨1, "Monday", "x", 2⟩, ⟨2, "Monday", "x", 3⟩]

/-! ## Helper lemmas -/

lemma pyMinBy_mem {α : Type} (key : α → ℚ) (x : α) (xs : List α) :
    pyMinBy key x xs ∈ x :: xs := by
  induction xs generalizing x with
  | nil => simp [pyMinBy]
  | cons y ys ih =>
    have h := ih (if key y < key x then y else x)
    rw [pyMinBy]
    rcases List.mem_cons.1 h with h1 | h1
    · rw [h1]
      by_cases hc : key y < key x <;> simp [hc]
    · simp [List.mem_cons, h1]

lemma pyMaxBy_mem {α : Type} (key : α → ℚ) (x : α) (xs : List α) :
    pyMaxBy key x xs ∈ x :: xs := by
  induction xs generalizing x with
  | nil => simp [pyMaxBy]
  | cons y ys ih =>
    have h := ih (if key x < key y then y else x)
    rw [pyMaxBy]
    rcases List.mem_cons.1 h with h1 | h1
    · rw [h1]
      by_cases hc : key x < key y <;> simp [hc]
    · simp [List.mem_cons, h1]

lemma mem_insertDesc {α : Type} (key : α → ℚ) (x a : α) (l : List α) :
    a ∈ insertDesc key x l ↔ a = x ∨ a ∈ l := by
  induction l with
  | nil => simp [insertDesc]
  | cons y ys ih =>
    rw [insertDesc]
    by_cases hc : key y < key x
    · simp [hc, ih, List.mem_cons]
    · simp [hc, ih, List.mem_cons]
      tauto

lemma pairwise_insertDesc {α : Type} (key : α → ℚ) (x : α) (l : List α)
    (h : l.Pairwise (fun u v => key v ≤ key u)) :
    (insertDesc key x l).Pairwise (fun u v => key v ≤ key u) := by
  induction l with
  | nil => simp [insertDesc]
  | cons y ys ih =>
    rw [List.pairwise_cons] at h
    obtain ⟨hy, hys⟩ := h
    by_cases hc : key y < key x
    · rw [insertDesc, if_pos hc]
      refine List.pairwise_cons.2 ⟨?_, List.pairwise_cons.2 ⟨hy, hys⟩⟩
      intro z hz
      rcases List.mem_cons.1 hz with rfl | hz'
      · exact le_of_lt hc
      · exact le_trans (hy z hz') (le_of_lt hc)
    · rw [insertDesc, if_neg hc]
      refine List.pairwise_cons.2 ⟨?_, ih hys⟩
      intro z hz
      rcases (mem_insertDesc key x z ys).1 hz with rfl | hz'
      · exact le_of_not_lt hc
      · exact hy z hz'

lemma mem_foldl_insertDesc {α : Type} (key : α → ℚ) :
    ∀ (l acc : List α) (a : α),
      a ∈ l.foldl (fun acc x => insertDesc key x acc) acc ↔ a ∈ acc ∨ a ∈ l := by
  intro l
  induction l with
  | nil => simp
  | cons x xs ih =>
    intro acc a
    rw [List.foldl_cons, ih, mem_insertDesc]
    simp [List.mem_cons]
    tauto

lemma mem_sortDescBy {α : Type} (key : α → ℚ) (l : List α) (a : α) :
    a ∈ sortDescBy key l ↔ a ∈ l := by
  rw [sortDescBy, mem_foldl_insertDesc]
  simp

lemma pairwise_foldl_insertDesc {α : Type} (key : α → ℚ) :
    ∀ (l acc : List α),
      acc.Pairwise (fun u v => key v ≤ key u) →
      (l.foldl (fun acc x => insertDesc key x acc) acc).Pairwise
        (fun u v => key v ≤ key u) := by
  intro l
  induction l with
  | nil => intro acc h; simpa using h
  | cons x xs ih =>
    intro acc h
    rw [List.foldl_cons]
    exact ih _ (pairwise_insertDesc key x acc h)

lemma pairwise_sortDescBy {α : Type} (key : α → ℚ) (l : List α) :
    (sortDescBy key l).Pairwise (fun u v => key v ≤ key u) :=
  pairwise_foldl_insertDesc key l [] (by simp)

lemma daily_prices_count (df : DF) (e : String × ℚ × ℕ)
    (he : e ∈ daily_prices df) : e.2.2 = dayCount df e.1 := by
  rw [daily_prices, List.mem_filterMap] at he
  obtain ⟨d, _, hif⟩ := he
  by_cases hnil : dayPrices df d = []
  · simp [hnil] at hif
  · simp only [hnil, if_false, Option.some_inj] at hif
    rw [← hif]

/-! ## Claim theorems -/

section ConcreteEvaluation

attribute [local semireducible] Rat.add Rat.mul Rat.sub Rat.inv Rat.ofScientific

/-- C2: for every reagent whose item id is present in the vendor price
table (and not yet in the pass cache), resolution reports source vendor
and both the current and the 7-day unit price equal the fixed vendor price
exactly, for every market frame and every catalog, hence regardless of any
cheaper craft cost or market price. -/
theorem vendor_price_always_wins (fuel : ℕ) (reagent_id reagent_name : String)
    (df : DF) (lookup : RecipeLookup) (vendor : VendorTable) (cache : Cache)
    (v : ℚ) (hcache : lookupCache cache reagent_id = none)
    (hvendor : get_vendor_price vendor reagent_id = some v) :
    get_best_reagent_price fuel reagent_id reagent_name df lookup vendor cache
      = (some ((v, v), "vendor"),
         cacheInsert cache reagent_id ⟨v, v, "vendor"⟩) := by
  rw [get_best_reagent_price, get_best_reagent_price_gen, hcache, hvendor]

/-- Witness for vendor_price_always_wins at a concrete input: item 5 has
vendor price 1/10 while its market price in the frame is lower (1/100). -/
theorem vendor_price_always_wins_witness :
    lookupCache [] "5" = none
    ∧ get_vendor_price [("5", 1/10)] "5" = some (1/10)
    ∧ get_best_reagent_price 3 "5" "Vial" [⟨0, "Monday", "Vial", 1/100⟩] []
        [("5", 1/10)] []
        = (some ((1/10, 1/10), "vendor"),
           cacheInsert [] "5" ⟨1/10, 1/10, "vendor"⟩) :=
  ⟨by decide, by decide,
   vendor_price_always_wins 3 "5" "Vial" [⟨0, "Monday", "Vial", 1/100⟩] []
     [("5", 1/10)] [] (1/10) (by decide) (by decide)⟩

/-- C3 counterexample: with the IronBar recipe over dfC3 the craft cost of
item 10 is exactly its market price (both 2), and the tie resolves to the
crafted side, not to the auction side the claim names. -/
theorem tie_resolves_to_crafted_counterexample :
    get_craft_price_for_reagent 2 "10" dfC3 lookupC3 [] []
      = (some (2, 2), [("11", ⟨2, 2, "auction"⟩)])
    ∧ get_market_price_for_reagent "IronBar" dfC3 = some (2, 2)
    ∧ (get_best_reagent_price 2 "10" "IronBar" dfC3 lookupC3 [] []).1
        = some ((2, 2), "crafted")
    ∧ (get_best_reagent_price 2 "10" "IronBar" dfC3 lookupC3 [] []).1
        ≠ some ((2, 2), "auction") := by
  decide

/-- C3 amended: for every reagent with no vendor entry, no cache entry,
a resolvable craft cost and a market price, the resolved unit price is the
minimum of craft cost and market price compared on the current-price
basis, with the source tagged accordingly; the tie craft = market resolves
deterministically to the crafted side. -/
theorem best_price_min_current_tie_crafted (fuel : ℕ)
    (reagent_id reagent_name : String) (df : DF) (lookup : RecipeLookup)
    (vendor : VendorTable) (cache cache' : Cache) (c c7 m m7 : ℚ)
    (hcache : lookupCache cache reagent_id = none)
    (hvendor : get_vendor_price vendor reagent_id = none)
    (hcraft : get_craft_price_for_reagent fuel reagent_id df lookup vendor cache
      = (some (c, c7), cache'))
    (hmarket : get_market_price_for_reagent reagent_name df = some (m, m7)) :
    (get_best_reagent_price fuel reagent_id reagent_name df lookup vendor cache).1
      = if m < c then some ((m, m7), "auction") else some ((c, c7), "crafted") := by
  rw [get_best_reagent_price, get_best_reagent_price_gen, hcache, hvendor]
  simp only [hcraft, hmarket, choose_best_price, List.cons_append, List.nil_append,
    pyMinBy]
  by_cases hmc : m < c <;> simp [hmc]

/-- Witness for best_price_min_current_tie_crafted at a concrete input:
crafting the IronBar (cost 2) beats buying it (price 3). -/
theorem best_price_min_current_tie_crafted_witness :
    get_craft_price_for_reagent 2 "10" dfC3w lookupC3 [] []
      = (some (2, 2), [("11", ⟨2, 2, "auction"⟩)])
    ∧ get_market_price_for_reagent "IronBar" dfC3w = some (3, 3)
    ∧ (get_best_reagent_price 2 "10" "IronBar" dfC3w lookupC3 [] []).1
        = if (3 : ℚ) < 2 then some ((3, 3), "auction") else some ((2, 2), "crafted") :=
  ⟨by decide, by decide,
   best_price_min_current_tie_crafted 2 "10" "IronBar" dfC3w lookupC3 []
     [] [("11", ⟨2, 2, "auction"⟩)] 2 2 3 3 (by decide) (by decide) (by decide)
     (by decide)⟩

/-- C4 counterexample: recipe recC4 has the unresolvable reagent Mystery,
so its missing-prices list is non-empty, yet because the crafted Potion
has a market series the profit fields are computed from the resolvable
subset (cost 1, price 10, profit 9, 900 percent), not null as the claim
states. -/
theorem missing_reagent_profit_computed_counterexample :
    (calculate_crafting_cost_internal 1 recC4 dfC4 [] [] []).1.missing_prices
      = ["Mystery"]
    ∧ (calculate_crafting_cost_internal 1 recC4 dfC4 [] [] []).1.total_cost = 1
    ∧ (calculate_crafting_cost_internal 1 recC4 dfC4 [] [] []).1.current_price
        = some 10
    ∧ (calculate_crafting_cost_internal 1 recC4 dfC4 [] [] []).1.profit = some 9
    ∧ (calculate_crafting_cost_internal 1 recC4 dfC4 [] [] []).1.profit_pct
        = some 900 := by
  decide

/-- C4 amended: the profit and profit-percentage fields of a cost result
are null exactly when the crafted item has no market series, independently
of the missing-prices list; with a market series present they are computed
numerically from the resolvable subset. -/
theorem profit_null_iff_no_market_series (fuel : ℕ) (recipe : Recipe)
    (df : DF) (lookup : RecipeLookup) (vendor : VendorTable) (cache : Cache) :
    ((calculate_crafting_cost_internal fuel recipe df lookup vendor cache).1.profit = none
      ↔ (calculate_crafting_cost_internal fuel recipe df lookup vendor cache).1.current_price = none)
    ∧ ((calculate_crafting_cost_internal fuel recipe df lookup vendor cache).1.profit_pct = none
      ↔ (calculate_crafting_cost_internal fuel recipe df lookup vendor cache).1.current_price = none) := by
  rw [calculate_crafting_cost_internal, calculate_crafting_cost_internal_gen]
  cases (filterItem df recipe.name).getLast? <;> simp

/-- C9: the profit-percentage computation never divides by a zero total
cost: whenever the crafted item has a market price and the total cost is
zero, the profit percentage is defined to be zero, and likewise on the
7-day basis. -/
theorem profit_pct_zero_cost_guard (fuel : ℕ) (recipe : Recipe) (df : DF)
    (lookup : RecipeLookup) (vendor : VendorTable) (cache : Cache)
    (hmkt : (calculate_crafting_cost_internal fuel recipe df lookup vendor cache).1.current_price ≠ none) :
    ((calculate_crafting_cost_internal fuel recipe df lookup vendor cache).1.total_cost = 0 →
      (calculate_crafting_cost_internal fuel recipe df lookup vendor cache).1.profit_pct = some 0)
    ∧ ((calculate_crafting_cost_internal fuel recipe df lookup vendor cache).1.total_cost_7d = 0 →
      (calculate_crafting_cost_internal fuel recipe df lookup vendor cache).1.profit_7d_pct = some 0) := by
  rw [calculate_crafting_cost_internal, calculate_crafting_cost_internal_gen] at hmkt ⊢
  rcases h : (filterItem df recipe.name).getLast? with _ | last
  · rw [h] at hmkt
    simp at hmkt
  · refine ⟨fun h0 => ?_, fun h0 => ?_⟩
    · dsimp only at h0 ⊢
      rw [h0]
      simp
    · dsimp only at h0 ⊢
      rw [h0]
      simp

/-- Witness for profit_pct_zero_cost_guard at a concrete input: the
reagent-free Elixir recipe has total cost 0 and a priced crafted item, and
both percentage figures come out as zero. -/
theorem profit_pct_zero_cost_guard_witness :
    (calculate_crafting_cost_internal 1 recC9 dfC9 [] [] []).1.current_price ≠ none
    ∧ (calculate_crafting_cost_internal 1 recC9 dfC9 [] [] []).1.total_cost = 0
    ∧ (calculate_crafting_cost_internal 1 recC9 dfC9 [] [] []).1.total_cost_7d = 0
    ∧ (calculate_crafting_cost_internal 1 recC9 dfC9 [] [] []).1.profit_pct = some 0
    ∧ (calculate_crafting_cost_internal 1 recC9 dfC9 [] [] []).1.profit_7d_pct = some 0 :=
  ⟨by decide, by decide, by decide,
   (profit_pct_zero_cost_guard 1 recC9 dfC9 [] [] [] (by decide)).1 (by decide),
   (profit_pct_zero_cost_guard 1 recC9 dfC9 [] [] [] (by decide)).2 (by decide)⟩

/-- C7: the code computes trend 0 for a series whose 7-day average is
exactly zero while the 30-day average is 3/2, because the Python
truthiness test treats the zero average as missing data; the trend the
specification defines for that series is -100. -/
theorem trend_zero_average_code_bug :
    (analyze_item dfC7 "Gem").map ItemStats.avg_7d = some 0
    ∧ (analyze_item dfC7 "Gem").map ItemStats.avg_30d = some (3/2)
    ∧ (analyze_item dfC7 "Gem").map ItemStats.trend = some 0
    ∧ analyze_item_trend_per_spec dfC7 "Gem" = some (-100) := by
  decide

/-- C10: over obsC10 the weekday means are rounded to two decimals before
best-day selection: Monday has the strictly lowest exact mean, but both
means round to 1, the tie is broken by the alphabetical group order in
favour of Friday, and the reported best-buy price is the rounded mean of
the selected day (1), not its exact mean (1.004). -/
theorem rounded_means_alphabetical_tiebreak_demo :
    mean (dayPrices obsC10 "Monday") < mean (dayPrices obsC10 "Friday")
    ∧ round2 (mean (dayPrices obsC10 "Monday"))
        = round2 (mean (dayPrices obsC10 "Friday"))
    ∧ 3 ≤ dayCount obsC10 "Monday"
    ∧ 3 ≤ dayCount obsC10 "Friday"
    ∧ (analyze_daily_patterns obsC10).best_buy_day = "Friday"
    ∧ (analyze_daily_patterns obsC10).best_buy_price
        = round2 (mean (dayPrices obsC10 "Friday"))
    ∧ (analyze_daily_patterns obsC10).best_buy_price
        ≠ mean (dayPrices obsC10 "Friday") := by
  decide

/-- C8: whenever any weekday qualifies, the selected best-buy day and
best-sell day each have at least 3 observations in the input series, so a
weekday with fewer than 3 observations is never selected, however extreme
its mean avg_price. -/
theorem best_days_require_three_samples (item_df : DF)
    (h : valid_days item_df ≠ []) :
    3 ≤ dayCount item_df (analyze_daily_patterns item_df).best_buy_day
    ∧ 3 ≤ dayCount item_df (analyze_daily_patterns item_df).best_sell_day := by
  rcases hv : valid_days item_df with _ | ⟨v, vs⟩
  · exact absurd hv h
  · rw [analyze_daily_patterns, hv]
    dsimp only
    constructor
    · have hmem : pyMinBy (fun e => e.2.1) v vs ∈ v :: vs := pyMinBy_mem _ v vs
      rw [← hv, valid_days] at hmem
      obtain ⟨hdp, h3⟩ := List.mem_filter.1 hmem
      rw [daily_prices_count item_df _ hdp] at h3
      simpa using h3
    · have hmem : pyMaxBy (fun e => e.2.1) v vs ∈ v :: vs := pyMaxBy_mem _ v vs
      rw [← hv, valid_days] at hmem
      obtain ⟨hdp, h3⟩ := List.mem_filter.1 hmem
      rw [daily_prices_count item_df _ hdp] at h3
      simpa using h3

/-- Witness for best_days_require_three_samples at a concrete input: a
series of three Monday observations qualifies, and Monday is selected with
its three samples. -/
theorem best_days_require_three_samples_witness :
    valid_days obsC8 ≠ []
    ∧ 3 ≤ dayCount obsC8 (analyze_daily_patterns obsC8).best_buy_day
    ∧ 3 ≤ dayCount obsC8 (analyze_daily_patterns obsC8).best_sell_day :=
  ⟨by decide,
   (best_days_require_three_samples obsC8 (by decide)).1,
   (best_days_require_three_samples obsC8 (by decide)).2⟩

/-- C6 counterexample: over dfC6 the Gem deviation is exactly minus the
default 5 percent threshold, and the code produces no opportunity at all
for it, while the claim requires the boundary case to be classified as a
buy opportunity. -/
theorem threshold_boundary_excluded_counterexample :
    (analyze_buy_sell_now dfC6 "Gem").map BuySellAnalysis.pct_diff = some (-5)
    ∧ get_buy_sell_opportunities dfC6 [("1", "Gem")] 5 = ([], []) := by
  decide

end ConcreteEvaluation

/-- The buy list built by the classification loop before sorting: the
analyses, in item order, whose deviation is strictly below the negated
threshold. -/
def buys_pre (df : DF) (t : ℚ) (items : List (String × String)) :
    List BuySellAnalysis :=
  (items.filterMap (fun p => analyze_buy_sell_now df p.2)).filter
    (fun a => decide (a.pct_diff < -t))

/-- The sell list built by the classification loop before sorting: the
analyses, in item order, that miss the buy branch and whose deviation is
strictly above the threshold. -/
def sells_pre (df : DF) (t : ℚ) (items : List (String × String)) :
    List BuySellAnalysis :=
  (items.filterMap (fun p => analyze_buy_sell_now df p.2)).filter
    (fun a => !decide (a.pct_diff < -t) && decide (t < a.pct_diff))

lemma classify_fold (df : DF) (t : ℚ) :
    ∀ (items : List (String × String)) (b0 s0 : List BuySellAnalysis),
      items.foldl (classify_step df t) (b0, s0)
        = (b0 ++ buys_pre df t items, s0 ++ sells_pre df t items) := by
  intro items
  induction items with
  | nil =>
    intro b0 s0
    simp [buys_pre, sells_pre]
  | cons p ps ih =>
    intro b0 s0
    rcases hp : analyze_buy_sell_now df p.2 with _ | a
    · simp only [List.foldl_cons, classify_step, hp]
      rw [ih]
      simp [buys_pre, sells_pre, hp]
    · by_cases hb : a.pct_diff < -t
      · simp only [List.foldl_cons, classify_step, hp, if_pos hb]
        rw [ih]
        simp [buys_pre, sells_pre, hp, hb]
      · by_cases hs : t < a.pct_diff
        · simp only [List.foldl_cons, classify_step, hp, if_neg hb, if_pos hs]
          rw [ih]
          simp [buys_pre, sells_pre, hp, hb, hs]
        · simp only [List.foldl_cons, classify_step, hp, if_neg hb, if_neg hs]
          rw [ih]
          simp [buys_pre, sells_pre, hp, hb, hs]

/-- C6 amended: an analysis lands in the buy list exactly when its
deviation is strictly below -threshold and in the sell list exactly when
it is not a buy and strictly above +threshold; items whose deviation
equals either boundary produce no opportunity. -/
theorem opportunity_classification_strict (df : DF)
    (items : List (String × String)) (t : ℚ) (a : BuySellAnalysis) :
    (a ∈ (get_buy_sell_opportunities df items t).1 ↔
      (∃ p, p ∈ items ∧ analyze_buy_sell_now df p.2 = some a)
        ∧ a.pct_diff < -t)
    ∧ (a ∈ (get_buy_sell_opportunities df items t).2 ↔
      (∃ p, p ∈ items ∧ analyze_buy_sell_now df p.2 = some a)
        ∧ ¬(a.pct_diff < -t) ∧ t < a.pct_diff) := by
  rw [get_buy_sell_opportunities]
  dsimp only
  rw [classify_fold df t items [] []]
  dsimp only
  constructor
  · rw [mem_sortDescBy, List.nil_append, buys_pre, List.mem_filter,
      List.mem_filterMap]
    simp only [decide_eq_true_eq]
  · rw [mem_sortDescBy, List.nil_append, sells_pre, List.mem_filter,
      List.mem_filterMap]
    simp only [Bool.and_eq_true, Bool.not_eq_true', decide_eq_false_iff_not,
      decide_eq_true_eq]

/-- C5: get_profitable_recipes returns exactly those batch analyses with
an empty missing-prices list, a non-null profit and a profit percentage at
least the caller minimum, and the returned list is ordered by descending
current-basis profit in gold. -/
theorem profitable_recipes_filter_and_order (fuel : ℕ)
    (recipes : List Recipe) (df : DF) (lookup : RecipeLookup)
    (vendor : VendorTable) (min_profit_pct : ℚ) :
    (∀ a, a ∈ get_profitable_recipes fuel recipes df lookup vendor min_profit_pct ↔
      (a ∈ (analyses_fold fuel recipes df lookup vendor []).1
        ∧ a.missing_prices = [] ∧ a.profit ≠ none
        ∧ min_profit_pct ≤ a.profit_pct.getD 0))
    ∧ (get_profitable_recipes fuel recipes df lookup vendor min_profit_pct).Pairwise
        (fun x y => y.profit.getD 0 ≤ x.profit.getD 0) := by
  constructor
  · intro a
    rw [get_profitable_recipes]
    rw [mem_sortDescBy, List.mem_filter]
    simp only [Bool.and_eq_true, decide_eq_true_eq, Option.isSome_iff_ne_none,
      List.isEmpty_iff]
    tauto
  · rw [get_profitable_recipes]
    exact pairwise_sortDescBy _ _

/-- Witness for profit_null_iff_no_market_series at a concrete input: the
recC4 resolution over dfC4. -/
theorem profit_null_iff_no_market_series_witness :
    ((calculate_crafting_cost_internal 1 recC4 dfC4 [] [] []).1.profit = none
      ↔ (calculate_crafting_cost_internal 1 recC4 dfC4 [] [] []).1.current_price = none)
    ∧ ((calculate_crafting_cost_internal 1 recC4 dfC4 [] [] []).1.profit_pct = none
      ↔ (calculate_crafting_cost_internal 1 recC4 dfC4 [] [] []).1.current_price = none) :=
  profit_null_iff_no_market_series 1 recC4 dfC4 [] [] []

/-- Witness for opportunity_classification_strict at a concrete input: the
Gem analysis over dfC6 at the default threshold. -/
theorem opportunity_classification_strict_witness :
    (⟨"Gem", 19/2, 10, -5, -(1/2), 2⟩ ∈
        (get_buy_sell_opportunities dfC6 [("1", "Gem")] 5).1 ↔
      (∃ p, p ∈ [("1", "Gem")]
          ∧ analyze_buy_sell_now dfC6 p.2 = some ⟨"Gem", 19/2, 10, -5, -(1/2), 2⟩)
        ∧ (-5 : ℚ) < -5)
    ∧ (⟨"Gem", 19/2, 10, -5, -(1/2), 2⟩ ∈
        (get_buy_sell_opportunities dfC6 [("1", "Gem")] 5).2 ↔
      (∃ p, p ∈ [("1", "Gem")]
          ∧ analyze_buy_sell_now dfC6 p.2 = some ⟨"Gem", 19/2, 10, -5, -(1/2), 2⟩)
        ∧ ¬((-5 : ℚ) < -5) ∧ (5 : ℚ) < -5) :=
  opportunity_classification_strict dfC6 [("1", "Gem")] 5 ⟨"Gem", 19/2, 10, -5, -(1/2), 2⟩

/-- Witness for profitable_recipes_filter_and_order at a concrete input:
the single-recipe batch of the reagent-free Elixir recipe. -/
theorem profitable_recipes_filter_and_order_witness :
    (∀ a, a ∈ get_profitable_recipes 1 [recC9] dfC9 [] [] 0 ↔
      (a ∈ (analyses_fold 1 [recC9] dfC9 [] [] []).1
        ∧ a.missing_prices = [] ∧ a.profit ≠ none
        ∧ (0 : ℚ) ≤ a.profit_pct.getD 0))
    ∧ (get_profitable_recipes 1 [recC9] dfC9 [] [] 0).Pairwise
        (fun x y => y.profit.getD 0 ≤ x.profit.getD 0) :=
  profitable_recipes_filter_and_order 1 [recC9] dfC9 [] [] 0

/-! ## Cycle safety (C1)

Over the two-recipe cycle with no market data and no vendor data, every
resolution attempt at every fuel level returns with the cyclic reagent
reported missing and the cache untouched. -/

lemma cycle_calc_recA (craftFn : String → Cache → Option (ℚ × ℚ) × Cache)
    (cache : Cache) (h2 : lookupCache cache "2" = none)
    (hc : craftFn "2" cache = (none, cache)) :
    calculate_crafting_cost_internal_gen
      (fun rid rname c' => get_best_reagent_price_gen craftFn rid rname [] [] c')
      recA [] cache = (resACyc, cache) := by
  rw [calculate_crafting_cost_internal_gen]
  simp [recA, resACyc, calc_reagents_gen, get_best_reagent_price_gen, h2, hc,
    get_vendor_price, get_market_price_for_reagent, filterItem,
    choose_best_price]

lemma cycle_calc_recB (craftFn : String → Cache → Option (ℚ × ℚ) × Cache)
    (cache : Cache) (h1 : lookupCache cache "1" = none)
    (hc : craftFn "1" cache = (none, cache)) :
    calculate_crafting_cost_internal_gen
      (fun rid rname c' => get_best_reagent_price_gen craftFn rid rname [] [] c')
      recB [] cache = (resBCyc, cache) := by
  rw [calculate_crafting_cost_internal_gen]
  simp [recB, resBCyc, calc_reagents_gen, get_best_reagent_price_gen, h1, hc,
    get_vendor_price, get_market_price_for_reagent, filterItem,
    choose_best_price]

lemma cycle_craft_none :
    ∀ (fuel : ℕ) (cache : Cache),
      lookupCache cache "1" = none → lookupCache cache "2" = none →
      get_craft_price_for_reagent fuel "1" [] lookupCyc [] cache = (none, cache)
      ∧ get_craft_price_for_reagent fuel "2" [] lookupCyc [] cache = (none, cache) := by
  intro fuel
  induction fuel with
  | zero =>
    intro cache h1 h2
    exact ⟨rfl, rfl⟩
  | succ n ih =>
    intro cache h1 h2
    have hlA : lookupRecipe lookupCyc "1" = some recA := rfl
    have hlB : lookupRecipe lookupCyc "2" = some recB := rfl
    constructor
    · rw [get_craft_price_for_reagent, get_craft_price_for_reagent_gen, hlA]
      have hcalc := cycle_calc_recA
        (fun rid' c'' => get_craft_price_for_reagent n rid' [] lookupCyc [] c'')
        cache h2 (ih cache h1 h2).2
      dsimp only
      rw [hcalc]
      simp [resACyc]
    · rw [get_craft_price_for_reagent, get_craft_price_for_reagent_gen, hlB]
      have hcalc := cycle_calc_recB
        (fun rid' c'' => get_craft_price_for_reagent n rid' [] lookupCyc [] c'')
        cache h1 (ih cache h1 h2).1
      dsimp only
      rw [hcalc]
      simp [resBCyc]

lemma cycle_calcInternal_recA (fuel : ℕ) (cache : Cache)
    (h1 : lookupCache cache "1" = none) (h2 : lookupCache cache "2" = none) :
    calculate_crafting_cost_internal fuel recA [] lookupCyc [] cache
      = (resACyc, cache) := by
  rw [calculate_crafting_cost_internal]
  simp only [get_best_reagent_price]
  exact cycle_calc_recA _ cache h2 ((cycle_craft_none fuel cache h1 h2).2)

lemma cycle_calcInternal_recB (fuel : ℕ) (cache : Cache)
    (h1 : lookupCache cache "1" = none) (h2 : lookupCache cache "2" = none) :
    calculate_crafting_cost_internal fuel recB [] lookupCyc [] cache
      = (resBCyc, cache) := by
  rw [calculate_crafting_cost_internal]
  simp only [get_best_reagent_price]
  exact cycle_calc_recB _ cache h1 ((cycle_craft_none fuel cache h1 h2).1)

section ConcreteCycleEvaluation

attribute [local semireducible] Rat.add Rat.mul Rat.sub Rat.inv Rat.ofScientific

/-- C1 counterexample: over the same cyclic catalog but with a market
price of 5 on the cyclic item Thorium, the craft path of the other cyclic
item Arcanite comes back defined rather than unresolvable — the truncated
cyclic descent falls back to the market price — and the pass cache
acquires an entry for a cyclic item; recipe B, on the cyclic path,
resolves with an empty missing-prices list. This refutes the claim that
every item on a cyclic path is reported as unresolvable for the craft
path in every cyclic catalog. -/
theorem cycle_with_market_price_craftable_counterexample :
    get_craft_price_for_reagent 1 "1" dfCycM lookupCyc [] []
      = (some (5, 5), [("2", ⟨5, 5, "auction"⟩)])
    ∧ (get_craft_price_for_reagent 1 "1" dfCycM lookupCyc [] []).1 ≠ none
    ∧ (calculate_crafting_cost_internal 3 recB dfCycM lookupCyc [] []).1.missing_prices
      = [] := by
  decide

/-- C1 amended: over the canonical cyclic catalog (recipe A requires item
2, recipe B requires item 1) resolution returns at every fuel level, so
it is total for every modelled recursion limit. When the cyclic items
have no vendor entry and no market data, each recipe reports its cyclic
reagent in a non-empty missing-prices list with zero totals and null
profit (resACyc, resBCyc), the craft path of both items is undefined
(none, not zero), any pre-existing cache entries for other items are
returned untouched, and the batch ranking over both recipes completes and
excludes them. This does not extend to cyclic catalogs with market data
on the cycle: with Thorium market-priced, the craft path of Arcanite is
defined and the pass cache acquires entries for the cyclic items. -/
theorem cyclic_recipes_resolve_without_corruption (fuel : ℕ) (cache : Cache)
    (h1 : lookupCache cache "1" = none) (h2 : lookupCache cache "2" = none) :
    (calculate_crafting_cost_internal fuel recA [] lookupCyc [] cache
        = (resACyc, cache)
      ∧ calculate_crafting_cost_internal fuel recB [] lookupCyc [] cache
        = (resBCyc, cache)
      ∧ get_craft_price_for_reagent fuel "1" [] lookupCyc [] cache = (none, cache)
      ∧ get_craft_price_for_reagent fuel "2" [] lookupCyc [] cache = (none, cache)
      ∧ get_profitable_recipes fuel [recA, recB] [] lookupCyc [] 0 = [])
    ∧ (get_craft_price_for_reagent 1 "1" dfCycM lookupCyc [] []
        = (some (5, 5), [("2", ⟨5, 5, "auction"⟩)])
      ∧ (calculate_crafting_cost_internal 3 recB dfCycM lookupCyc [] []).1.missing_prices
        = []) := by
  constructor
  · refine ⟨cycle_calcInternal_recA fuel cache h1 h2,
      cycle_calcInternal_recB fuel cache h1 h2,
      (cycle_craft_none fuel cache h1 h2).1,
      (cycle_craft_none fuel cache h1 h2).2, ?_⟩
    rw [get_profitable_recipes, analyses_fold,
      cycle_calcInternal_recA fuel [] rfl rfl]
    dsimp only
    rw [analyses_fold, cycle_calcInternal_recB fuel [] rfl rfl]
    dsimp only
    rw [analyses_fold]
    simp [resACyc, resBCyc, sortDescBy]
  · exact ⟨by decide, by decide⟩

/-- Witness for cyclic_recipes_resolve_without_corruption at a concrete
input: fuel 3 and a cache holding an entry for the unrelated item 7, which
survives the cyclic resolution unchanged. -/
theorem cyclic_recipes_resolve_without_corruption_witness :
    lookupCache [("7", ⟨1, 1, "vendor"⟩)] "1" = none
    ∧ lookupCache [("7", ⟨1, 1, "vendor"⟩)] "2" = none
    ∧ calculate_crafting_cost_internal 3 recA [] lookupCyc []
        [("7", ⟨1, 1, "vendor"⟩)] = (resACyc, [("7", ⟨1, 1, "vendor"⟩)]) :=
  ⟨by decide, by decide,
   (cyclic_recipes_resolve_without_corruption 3 [("7", ⟨1, 1, "vendor"⟩)]
     (by decide) (by decide)).1.1⟩

end ConcreteCycleEvaluation

end Goblinomincs
